import Mathlib

/-!
Verification of the PortfolioSentinel scoring and technical-indicator engine
(`indicators.py`, `scoring.py`) against its specification.

The Python code is shallowly embedded: prices, ratios and percentages are
modelled as exact rationals (`ℚ`), Python `round(x, d)` as round-half-to-even
on rationals, dictionaries as structures with `Option` fields where the source
distinguishes a missing/falsy entry, and Python truthiness (`if x:` on a
number) as an explicit `x ≠ 0` test.  Narrative findings are modelled as an
inductive type carrying the numeric payload of each template string; the
locale text itself plays no role in any property considered here.
-/

namespace PortfolioSentinel

set_option maxRecDepth 1000000

/-! ## Python rounding on rationals

`round(x, d)` in Python rounds half to even.  `qfloor` is a computable floor
on `ℚ` (Mathlib's `⌊·⌋` does not reduce in the kernel). -/

/-- Computable floor of a rational. -/
def qfloor (x : ℚ) : ℤ := x.num.fdiv x.den

/-- Round half to even, to the nearest integer. -/
def rhe (x : ℚ) : ℤ :=
  let f := qfloor x
  if x - f < 1/2 then f
  else if 1/2 < x - f then f + 1
  else if 2 ∣ f then f else f + 1

/-- Python's `round(x, d)` on exact rationals. -/
def pyround (d : ℕ) (x : ℚ) : ℚ := (rhe (x * 10 ^ d) : ℚ) / 10 ^ d

theorem qfloor_eq_floor (x : ℚ) : qfloor x = ⌊x⌋ := by
  rw [qfloor, Rat.floor_def, Int.fdiv_eq_ediv _ (by positivity)]

theorem qfloor_le (x : ℚ) : (qfloor x : ℚ) ≤ x := by
  rw [qfloor_eq_floor]; exact Int.floor_le x

theorem lt_qfloor_add_one (x : ℚ) : x < qfloor x + 1 := by
  rw [qfloor_eq_floor]; exact_mod_cast Int.lt_floor_add_one x

theorem rhe_nonneg {x : ℚ} (hx : 0 ≤ x) : 0 ≤ rhe x := by
  have h0 : 0 ≤ qfloor x := by
    rw [qfloor_eq_floor]; exact Int.floor_nonneg.mpr hx
  unfold rhe
  dsimp only
  split_ifs <;> omega

theorem rhe_le (x : ℚ) : (rhe x : ℚ) ≤ x + 1/2 := by
  have h1 : (qfloor x : ℚ) ≤ x := qfloor_le x
  have h2 : x < qfloor x + 1 := lt_qfloor_add_one x
  unfold rhe
  dsimp only
  split_ifs with hc1 hc2 <;> push_cast <;> linarith

theorem le_rhe (x : ℚ) : x - 1/2 ≤ (rhe x : ℚ) := by
  have h1 : (qfloor x : ℚ) ≤ x := qfloor_le x
  have h2 : x < qfloor x + 1 := lt_qfloor_add_one x
  unfold rhe
  dsimp only
  split_ifs with hc1 hc2 <;> push_cast <;> linarith

theorem pyround_nonneg {d : ℕ} {x : ℚ} (hx : 0 ≤ x) : 0 ≤ pyround d x := by
  unfold pyround
  have h10 : (0:ℚ) < 10 ^ d := by positivity
  have h0 : (0:ℤ) ≤ rhe (x * 10 ^ d) := rhe_nonneg (by positivity)
  positivity

/-- Rounding a value of `[0, 100)` to two decimals stays in `[0, 100]`. -/
theorem pyround2_mem_Icc {x : ℚ} (h0 : 0 ≤ x) (h1 : x < 100) :
    0 ≤ pyround 2 x ∧ pyround 2 x ≤ 100 := by
  refine ⟨pyround_nonneg h0, ?_⟩
  unfold pyround
  have h2 : (rhe (x * 10 ^ 2) : ℚ) ≤ x * 10 ^ 2 + 1/2 := rhe_le _
  have h3 : x * 10 ^ 2 < 10000 := by nlinarith
  have h4 : (rhe (x * 10 ^ 2) : ℚ) < 10001 := lt_of_le_of_lt h2 (by linarith)
  have h5 : rhe (x * 10 ^ 2) ≤ 10000 := by
    have h4i : rhe (x * 10 ^ 2) < 10001 := by exact_mod_cast h4
    omega
  have h6 : (rhe (x * 10 ^ 2) : ℚ) ≤ 10000 := by exact_mod_cast h5
  rw [div_le_iff₀ (by norm_num : (0:ℚ) < 10 ^ 2)]
  have h7 : (100:ℚ) * 10 ^ 2 = 10000 := by norm_num
  linarith

/-! ## Indicator engine (`indicators.py`)

Python floats are modelled as exact rationals; `None` as `Option.none`.
`if x:` on a float-or-`None` value tests both for `None` and for `0`. -/

/-- `calcular_media_movil`: simple moving average of the last `periodo` closes,
rounded to 2 decimals; `none` when fewer than `periodo` closes exist. -/
def calcular_media_movil (precios_cierre : List ℚ) (periodo : ℕ) : Option ℚ :=
  if precios_cierre.length < periodo then none
  else
    let ultimos := precios_cierre.drop (precios_cierre.length - periodo)
    some (pyround 2 (ultimos.sum / (ultimos.length : ℚ)))

/-- Day-over-day deltas of a close series (the `cambios` list in `calcular_rsi`). -/
def cambios : List ℚ → List ℚ
  | a :: b :: rest => (b - a) :: cambios (b :: rest)
  | _ => []

/-- Positive deltas, zero elsewhere (`subidas`). -/
def subidas (cs : List ℚ) : List ℚ := cs.map (fun c => if 0 < c then c else 0)

/-- Absolute values of negative deltas, zero elsewhere (`bajadas`). -/
def bajadas (cs : List ℚ) : List ℚ := cs.map (fun c => if c < 0 then |c| else 0)

/-- Wilder smoothing loop: `avg = (avg*(periodo-1) + v) / periodo` once per value. -/
def wilder (periodo : ℕ) (seed : ℚ) (vals : List ℚ) : ℚ :=
  vals.foldl (fun avg v => (avg * ((periodo : ℚ) - 1) + v) / (periodo : ℚ)) seed

/-- `calcular_rsi` with the standard period of 14.  The seed averages are taken
over `subidas[-periodo:]` / `bajadas[-periodo:]` (the LAST 14 deltas), then the
smoothing loop runs over the deltas from index `periodo` onwards, exactly as in
the source. -/
def calcular_rsi (precios_cierre : List ℚ) : Option ℚ :=
  let periodo : ℕ := 14
  if precios_cierre.length < periodo + 1 then none
  else
    let cs := cambios precios_cierre
    let subs := subidas cs
    let bajs := bajadas cs
    let avg_subida :=
      wilder periodo ((subs.drop (subs.length - periodo)).sum / (periodo : ℚ)) (subs.drop periodo)
    let avg_bajada :=
      wilder periodo ((bajs.drop (bajs.length - periodo)).sum / (periodo : ℚ)) (bajs.drop periodo)
    if avg_bajada = 0 then some 100
    else some (pyround 2 (100 - 100 / (1 + avg_subida / avg_bajada)))

/-- `calcular_media_movil_exponencial`: EMA seeded with the simple mean of the
first `periodo` values, recurrence `ema = (p - ema) * mult + ema`, rounded to 2
decimals at the end. -/
def calcular_media_movil_exponencial (precios : List ℚ) (periodo : ℕ) : Option ℚ :=
  if precios.length < periodo then none
  else
    let multiplicador : ℚ := 2 / ((periodo : ℚ) + 1)
    let ema0 := (precios.take periodo).sum / (periodo : ℚ)
    some (pyround 2 ((precios.drop periodo).foldl
      (fun ema p => (p - ema) * multiplicador + ema) ema0))

/-- Result record of `calcular_macd`. -/
structure SenalMACD where
  macd_value : ℚ
  signal_value : ℚ
  is_bullish : Bool
deriving DecidableEq

/-- The `macd_series` list built inside `calcular_macd`: for each index `i` in
`range(26, len)`, EMA(12) minus EMA(26) of the prefix `precios[:i+1]`, but only
appended when both EMAs are truthy (non-`None` and nonzero), per the source's
`if ema12_i and ema26_i` guard. -/
def macd_series (precios_cierre : List ℚ) : List ℚ :=
  (List.range' 26 (precios_cierre.length - 26)).filterMap (fun i =>
    match calcular_media_movil_exponencial (precios_cierre.take (i+1)) 12,
          calcular_media_movil_exponencial (precios_cierre.take (i+1)) 26 with
    | some e12, some e26 => if e12 ≠ 0 ∧ e26 ≠ 0 then some (e12 - e26) else none
    | _, _ => none)

/-- `calcular_macd`: EMA(12) minus EMA(26) rounded to 4 decimals; signal line is
the EMA(9) of `macd_series` once at least 9 values exist, else the default 0;
`is_bullish` is `macd_value > signal_value`. -/
def calcular_macd (precios_cierre : List ℚ) : SenalMACD :=
  if precios_cierre.length < 26 then ⟨0, 0, false⟩
  else
    match calcular_media_movil_exponencial precios_cierre 12,
          calcular_media_movil_exponencial precios_cierre 26 with
    | some ema_12, some ema_26 =>
        let macd_value := pyround 4 (ema_12 - ema_26)
        let series := macd_series precios_cierre
        let signal_value :=
          if 9 ≤ series.length then
            pyround 4 ((calcular_media_movil_exponencial series 9).getD 0)
          else 0
        ⟨macd_value, signal_value, decide (signal_value < macd_value)⟩
    | _, _ => ⟨0, 0, false⟩

/-- Result record of `calcular_bollinger`. -/
structure SenalBollinger where
  banda_superior : ℚ
  banda_media : ℚ
  banda_inferior : ℚ
  posicion : String
deriving DecidableEq

/-- `calcular_bollinger` with period 20 and 2 deviations.  The source computes
`varianza ** 0.5` with the float square root; that operation has no exact
rational counterpart, so it is abstracted as the parameter `sqrtFn`.  No claim
below depends on the numeric value of the deviation. -/
def calcular_bollinger (sqrtFn : ℚ → ℚ) (precios_cierre : List ℚ) : Option SenalBollinger :=
  let periodo : ℕ := 20
  let desviaciones : ℚ := 2
  if precios_cierre.length < periodo then none
  else
    let ultimos := precios_cierre.drop (precios_cierre.length - periodo)
    let precio_actual := (precios_cierre.getLast?).getD 0
    let media := ultimos.sum / (ultimos.length : ℚ)
    let diferencias := ultimos.map (fun p => (p - media) ^ 2)
    let varianza := diferencias.sum / (diferencias.length : ℚ)
    let desviacion_estandar := sqrtFn varianza
    let banda_superior := pyround 2 (media + desviaciones * desviacion_estandar)
    let banda_inferior := pyround 2 (media - desviaciones * desviacion_estandar)
    let banda_media := pyround 2 media
    let posicion :=
      if banda_superior < precio_actual then "Banda superior"
      else if precio_actual < banda_inferior then "Banda inferior"
      else "Banda media"
    some ⟨banda_superior, banda_media, banda_inferior, posicion⟩

/-- One historical bar, keeping the two fields the engine reads. -/
structure DatoHistorico where
  close : ℚ
  volume : ℚ
deriving DecidableEq

/-- Result record of `analizar_volumen`. -/
structure SenalVolumen where
  volumen_actual : ℚ
  volumen_promedio_30d : ℚ
  variacion_pct : ℚ
deriving DecidableEq

/-- `analizar_volumen`: latest volume vs the mean of the trailing 30 volumes;
the all-zero record when fewer than 30 bars exist, and a zero deviation when
the mean is not positive. -/
def analizar_volumen (datos_historicos : List DatoHistorico) : SenalVolumen :=
  let dias_promedio : ℕ := 30
  if datos_historicos.length < dias_promedio then ⟨0, 0, 0⟩
  else
    let volumen_actual := ((datos_historicos.getLast?).map (·.volume)).getD 0
    let volumenes_30d :=
      (datos_historicos.drop (datos_historicos.length - dias_promedio)).map (·.volume)
    let vol_prom :=
      if volumenes_30d ≠ [] then volumenes_30d.sum / (volumenes_30d.length : ℚ) else 0
    let variacion :=
      if 0 < vol_prom then ((volumen_actual - vol_prom) / vol_prom) * 100 else 0
    ⟨volumen_actual, pyround 0 vol_prom, pyround 2 variacion⟩

/-- Result record of `calcular_zona_entrada`.  The source's insufficient-data
branch returns a dictionary without the first three keys; they are filled with
0 here, matching the explicit zeros of the other fields. -/
structure ZonaEntrada where
  precio_actual : ℚ
  soporte_mm200 : ℚ
  soporte_bollinger : ℚ
  zona_ideal_min : ℚ
  zona_ideal_max : ℚ
  estado : String
  distancia_zona_pct : ℚ
deriving DecidableEq

/-- `calcular_zona_entrada`: entry zone between MM200 and the lower Bollinger
band.  `if not mm200 or not bollinger` treats both `None` and `0.0` as falsy. -/
def calcular_zona_entrada (precios_cierre : List ℚ) (mm200 : Option ℚ)
    (bollinger : Option SenalBollinger) : ZonaEntrada :=
  let precio_actual := match precios_cierre.getLast? with | some p => p | none => 0
  match mm200, bollinger with
  | some m, some b =>
    if m ≠ 0 then
      let soporte_mm200 := m
      let soporte_bollinger := b.banda_inferior
      let zona_min := pyround 2 (min soporte_mm200 soporte_bollinger)
      let zona_max := pyround 2 (max soporte_mm200 soporte_bollinger)
      let estado :=
        if precio_actual ≤ zona_max then "Zona de entrada activa" else "Esperar retroceso"
      let distancia :=
        if zona_max < precio_actual ∧ 0 < precio_actual then
          ((precio_actual - zona_max) / precio_actual) * 100
        else 0
      ⟨pyround 2 precio_actual, soporte_mm200, soporte_bollinger, zona_min, zona_max,
        estado, pyround 2 distancia⟩
    else ⟨0, 0, 0, 0, 0, "Datos insuficientes", 0⟩
  | _, _ => ⟨0, 0, 0, 0, 0, "Datos insuficientes", 0⟩

/-- Result record of `evaluar_riesgos`. -/
structure Riesgos where
  riesgo_corto_plazo : String
  riesgo_medio_plazo : String
  riesgo_largo_plazo : String
deriving DecidableEq

/-- The `score_a_nivel` helper inside `evaluar_riesgos`. -/
def score_a_nivel (score : ℕ) : String :=
  if 3 ≤ score then "Alto" else if 1 ≤ score then "Medio" else "Bajo"

/-- `evaluar_riesgos`: three additive point scores mapped to levels.  The
source guards `if rsi and rsi > 70` / `if beta and beta > 1.5`: a `None` or `0`
value contributes no points. -/
def evaluar_riesgos (beta : Option ℚ) (rsi : Option ℚ) (volumen_variacion : ℚ)
    (bollinger_posicion : String) : Riesgos :=
  let rsi_pts : ℕ :=
    match rsi with
    | some r => if r ≠ 0 ∧ 70 < r then 2 else if r ≠ 0 ∧ r < 30 then 1 else 0
    | none => 0
  let riesgo_cp_score :=
    rsi_pts + (if bollinger_posicion = "Banda superior" then 2 else 0)
      + (if 50 < volumen_variacion then 1 else 0)
  let beta_mp_pts : ℕ :=
    match beta with
    | some b => if b ≠ 0 ∧ 3/2 < b then 2 else if b ≠ 0 ∧ 1 < b then 1 else 0
    | none => 0
  let riesgo_mp_score :=
    beta_mp_pts + (if bollinger_posicion = "Banda superior" then 1 else 0)
  let riesgo_lp_score : ℕ :=
    match beta with
    | some b => if b ≠ 0 ∧ 9/5 < b then 2 else if b ≠ 0 ∧ 13/10 < b then 1 else 0
    | none => 0
  ⟨score_a_nivel riesgo_cp_score, score_a_nivel riesgo_mp_score, score_a_nivel riesgo_lp_score⟩

/-- A moving-average signal entry (`valor`, `precio_encima`; the display text of
the source is pure formatting and is not modelled). -/
structure SenalMM where
  valor : ℚ
  precio_encima : Bool
deriving DecidableEq

/-- The `medias_moviles` sub-dictionary of the indicator bundle. -/
structure MediasMoviles where
  mm50 : Option SenalMM
  mm100 : Option SenalMM
  mm200 : Option SenalMM
deriving DecidableEq

/-- The RSI signal entry (`valor`, `zona`). -/
structure SenalRSI where
  valor : ℚ
  zona : String
deriving DecidableEq

/-- The indicator bundle returned by `calcular_todos_indicadores`.  `none` in an
`Option` field models a missing/`None` entry. -/
structure Indicadores where
  precio_actual : ℚ
  medias_moviles : MediasMoviles
  rsi : Option SenalRSI
  macd : Option SenalMACD
  bollinger : Option SenalBollinger
  volumen : SenalVolumen
  zona_entrada : ZonaEntrada
  riesgos : Riesgos
deriving DecidableEq

/-- `calcular_todos_indicadores`: `none` for fewer than 30 bars, otherwise the
full bundle.  `if mm50:` on a float-or-`None` is falsy for both `None` and `0`. -/
def calcular_todos_indicadores (sqrtFn : ℚ → ℚ) (datos_historicos : List DatoHistorico)
    (beta : Option ℚ) : Option Indicadores :=
  if datos_historicos.length < 30 then none
  else
    let precios_cierre := datos_historicos.map (·.close)
    let precio_actual := (precios_cierre.getLast?).getD 0
    let mm50 := calcular_media_movil precios_cierre 50
    let mm100 := calcular_media_movil precios_cierre 100
    let mm200 := calcular_media_movil precios_cierre 200
    let rsi := calcular_rsi precios_cierre
    let macd := calcular_macd precios_cierre
    let bollinger := calcular_bollinger sqrtFn precios_cierre
    let volumen := analizar_volumen datos_historicos
    let zona_entrada := calcular_zona_entrada precios_cierre mm200 bollinger
    let bollinger_pos := match bollinger with | some b => b.posicion | none => "Banda media"
    let riesgos := evaluar_riesgos beta rsi volumen.variacion_pct bollinger_pos
    let senal_mm := fun (mm : Option ℚ) =>
      match mm with
      | some v => if v ≠ 0 then some (SenalMM.mk v (decide (v < precio_actual))) else none
      | none => none
    let senal_rsi :=
      match rsi with
      | some r => some (SenalRSI.mk r
          (if 70 < r then "Sobrecompra" else if r < 30 then "Sobreventa" else "Zona neutra"))
      | none => none
    some ⟨precio_actual,
      ⟨senal_mm mm50, senal_mm mm100, senal_mm mm200⟩,
      senal_rsi, some macd, bollinger, volumen, zona_entrada, riesgos⟩

/-! ## Scoring engine (`scoring.py`)

The fetch layer (`data_fetcher.py`) always populates every key of each
snapshot dictionary, defaulting unavailable numeric fields to 0, so the
snapshots are modelled as records with total fields; a whole snapshot that is
missing or empty (falsy in `if not fundamentals:`) is modelled as `none`. -/

/-- The fundamentals snapshot. -/
structure Fundamentals where
  pe_ratio : ℚ
  price_to_book : ℚ
  gross_margin_5y_avg : ℚ
  sales_growth_5y : ℚ
  eps_growth_5y : ℚ
  debt_to_equity : ℚ
  payout_ratio : ℚ
  has_buyback : Bool
deriving DecidableEq

/-- The sector benchmark snapshot. -/
structure SectorData where
  sector_pe : ℚ
  sector_pb : ℚ
  sector_gross_margin : ℚ
  sector_debt_to_equity : ℚ
deriving DecidableEq

/-- The dividend profile snapshot. -/
structure Dividends where
  dividend_yield_at_buy : ℚ
  dividend_growth_3y : ℚ
  dividend_growth_5y : ℚ
  pays_dividend : Bool
deriving DecidableEq

/-- The shares-outstanding snapshot. -/
structure SharesData where
  shares_outstanding : ℚ
  shares_trend_3y : ℚ
deriving DecidableEq

/-- The company profile; only `beta` is read by the core. -/
structure Profile where
  beta : ℚ
deriving DecidableEq

/-- The `company_data` dictionary assembled by the fetch layer. -/
structure CompanyData where
  profile : Option Profile
  fundamentals : Option Fundamentals
  sector : Option SectorData
  dividends : Option Dividends
  shares_outstanding : Option SharesData
deriving DecidableEq

/-- `puntuar_precio_valoracion`: PER and P/B vs sector, banded; neutral 7 when
either snapshot is missing, neutral band contribution (4 resp. 3) when a value
or denominator is falsy or non-positive. -/
def puntuar_precio_valoracion (fundamentals : Option Fundamentals)
    (sector_data : Option SectorData) : ℕ :=
  match fundamentals, sector_data with
  | some f, some s =>
    let per := f.pe_ratio
    let per_sector := s.sector_pe
    let p_per : ℕ :=
      if per ≠ 0 ∧ per_sector ≠ 0 ∧ 0 < per ∧ 0 < per_sector then
        let ratio_per := per / per_sector
        if ratio_per < 7/10 then 8
        else if ratio_per < 9/10 then 6
        else if ratio_per < 11/10 then 4
        else if ratio_per < 13/10 then 2
        else 1
      else 4
    let pb := f.price_to_book
    let pb_sector := s.sector_pb
    let p_pb : ℕ :=
      if pb ≠ 0 ∧ pb_sector ≠ 0 ∧ 0 < pb ∧ 0 < pb_sector then
        let ratio_pb := pb / pb_sector
        if ratio_pb < 7/10 then 7
        else if ratio_pb < 9/10 then 5
        else if ratio_pb < 11/10 then 4
        else if ratio_pb < 13/10 then 2
        else 1
      else 3
    min (p_per + p_pb) 15
  | _, _ => 7

/-- `puntuar_dividendo`: yield band + 3y/5y growth band + payout band + buyback
bonus, then an unconditional `puntos += 1` (the source comments it as the
share-shrinkage extra point, "se ajusta desde el llamador", yet adds it for
every input), capped at 15.  5 when the dividend snapshot is missing. -/
def puntuar_dividendo (dividends : Option Dividends)
    (fundamentals : Option Fundamentals) : ℕ :=
  match dividends with
  | none => 5
  | some d =>
    let yield_div := d.dividend_yield_at_buy
    let p_yield : ℕ :=
      if 4 ≤ yield_div then 4
      else if 5/2 ≤ yield_div then 3
      else if 3/2 ≤ yield_div then 2
      else if 0 < yield_div then 1
      else 0
    let crec_3y := d.dividend_growth_3y
    let crec_5y := d.dividend_growth_5y
    let p_crec : ℕ :=
      if 10 < crec_3y ∧ 8 < crec_5y then 4
      else if 5 < crec_3y ∧ 3 < crec_5y then 3
      else if 0 < crec_3y ∧ 0 < crec_5y then 2
      else if 0 < crec_3y ∨ 0 < crec_5y then 1
      else 0
    let payout : ℚ := match fundamentals with | some f => f.payout_ratio | none => 0
    let p_payout : ℕ :=
      if 30 ≤ payout ∧ payout ≤ 60 then 3
      else if (20 ≤ payout ∧ payout < 30) ∨ (60 < payout ∧ payout ≤ 75) then 2
      else if 0 < payout then 1
      else 0
    let p_buyback : ℕ :=
      match fundamentals with
      | some f => if f.has_buyback then 2 else 0
      | none => 0
    min (p_yield + p_crec + p_payout + p_buyback + 1) 15

/-- `puntuar_crecimiento`: 5y sales growth band (up to 8) plus 5y EPS growth
band (up to 7), capped at 15; neutral 7 when fundamentals are missing.  The
`sector_data` argument is unused, as in the source. -/
def puntuar_crecimiento (fundamentals : Option Fundamentals)
    (sector_data : Option SectorData) : ℕ :=
  match fundamentals with
  | none => 7
  | some f =>
    let vs5 := f.sales_growth_5y
    let p_vs : ℕ :=
      if 20 < vs5 then 8
      else if 10 < vs5 then 6
      else if 5 < vs5 then 4
      else if 0 < vs5 then 2
      else if -5 < vs5 then 1
      else 0
    let bpa5 := f.eps_growth_5y
    let p_bpa : ℕ :=
      if 25 < bpa5 then 7
      else if 15 < bpa5 then 5
      else if 8 < bpa5 then 4
      else if 0 < bpa5 then 2
      else if -5 < bpa5 then 1
      else 0
    min (p_vs + p_bpa) 15

/-- `puntuar_fortaleza_financiera`: debt/equity vs sector (up to 8, lower is
better) plus gross margin vs sector (up to 7, higher is better), capped at 15;
neutral 7 when a snapshot is missing, neutral contribution (4 resp. 3) when the
sector denominator is falsy or non-positive. -/
def puntuar_fortaleza_financiera (fundamentals : Option Fundamentals)
    (sector_data : Option SectorData) : ℕ :=
  match fundamentals, sector_data with
  | some f, some s =>
    let df := f.debt_to_equity
    let df_sector := s.sector_debt_to_equity
    let p_df : ℕ :=
      if df_sector ≠ 0 ∧ 0 < df_sector then
        let ratio_df := df / df_sector
        if ratio_df < 1/2 then 8
        else if ratio_df < 4/5 then 6
        else if ratio_df < 1 then 5
        else if ratio_df < 13/10 then 3
        else if ratio_df < 9/5 then 2
        else 1
      else 4
    let margen := f.gross_margin_5y_avg
    let margen_sector := s.sector_gross_margin
    let p_margen : ℕ :=
      if margen_sector ≠ 0 ∧ 0 < margen_sector then
        let ratio_margen := margen / margen_sector
        if 13/10 < ratio_margen then 7
        else if 11/10 < ratio_margen then 5
        else if 9/10 < ratio_margen then 4
        else if 7/10 < ratio_margen then 2
        else 1
      else 3
    min (p_df + p_margen) 15
  | _, _ => 7

/-- `puntuar_medias_moviles`: +2/+3/+5 when the price sits above MM50/MM100/
MM200; neutral 5 when the bundle is missing (the `medias_moviles` key always
exists in a bundle). -/
def puntuar_medias_moviles (indicadores : Option Indicadores) : ℕ :=
  match indicadores with
  | none => 5
  | some ind =>
    let mm := ind.medias_moviles
    let p50 : ℕ := match mm.mm50 with
      | some x => if x.precio_encima then 2 else 0
      | none => 0
    let p100 : ℕ := match mm.mm100 with
      | some x => if x.precio_encima then 3 else 0
      | none => 0
    let p200 : ℕ := match mm.mm200 with
      | some x => if x.precio_encima then 5 else 0
      | none => 0
    p50 + p100 + p200

/-- `puntuar_osciladores`: RSI band (up to 4) + MACD bullish bonus (3 vs 1) +
Bollinger position (up to 3), capped at 10; neutral 5 when the bundle is
missing. -/
def puntuar_osciladores (indicadores : Option Indicadores) : ℕ :=
  match indicadores with
  | none => 5
  | some ind =>
    let p_rsi : ℕ := match ind.rsi with
      | some rsi =>
        let valor := rsi.valor
        if 30 ≤ valor ∧ valor < 40 then 4
        else if valor < 30 then 4
        else if 40 ≤ valor ∧ valor ≤ 60 then 3
        else if 60 < valor ∧ valor ≤ 70 then 2
        else 1
      | none => 0
    let p_macd : ℕ := match ind.macd with
      | some m => if m.is_bullish then 3 else 1
      | none => 0
    let p_boll : ℕ := match ind.bollinger with
      | some b =>
        if b.posicion = "Banda inferior" then 3
        else if b.posicion = "Banda media" then 2
        else 1
      | none => 0
    min (p_rsi + p_macd + p_boll) 10

/-- `puntuar_volumen`: banded by the volume deviation percentage; 2 when the
bundle is missing. -/
def puntuar_volumen (indicadores : Option Indicadores) : ℕ :=
  match indicadores with
  | none => 2
  | some ind =>
    let variacion := ind.volumen.variacion_pct
    if 50 < variacion then 5
    else if 20 < variacion then 4
    else if 0 < variacion then 3
    else if -20 < variacion then 2
    else 1

/-- `puntuar_contexto_beta`: Low=3 / Medium=2 / High=0 per horizon (2 for an
unknown level string), capped at 8; 4 when the bundle is missing. -/
def puntuar_contexto_beta (indicadores : Option Indicadores) : ℕ :=
  match indicadores with
  | none => 4
  | some ind =>
    let niveles := fun (s : String) =>
      if s = "Bajo" then 3 else if s = "Medio" then 2 else if s = "Alto" then 0 else 2
    min (niveles ind.riesgos.riesgo_corto_plazo + niveles ind.riesgos.riesgo_medio_plazo
      + niveles ind.riesgos.riesgo_largo_plazo) 8

/-- `puntuar_acciones_circulacion`: banded by the 3-year share-count trend; 3
when the snapshot is missing. -/
def puntuar_acciones_circulacion (shares_data : Option SharesData) : ℕ :=
  match shares_data with
  | none => 3
  | some sh =>
    let trend := sh.shares_trend_3y
    if trend < -5 then 7
    else if trend < -2 then 5
    else if trend < 0 then 4
    else if trend = 0 then 3
    else if trend < 3 then 2
    else if trend < 7 then 1
    else 0

/-- The per-factor breakdown of `calcular_score`. -/
structure Desglose where
  precio_valoracion : ℕ
  dividendo_retribucion : ℕ
  crecimiento : ℕ
  fortaleza_financiera : ℕ
  medias_moviles : ℕ
  osciladores : ℕ
  volumen : ℕ
  contexto_beta : ℕ
  contexto_acciones : ℕ
deriving DecidableEq

/-- The result record of `calcular_score`. -/
structure ScoreData where
  score_total : ℕ
  desglose : Desglose
deriving DecidableEq

/-- `calcular_score`: the nine sub-scores, the caller-side `+1` dividend
adjustment when the share trend is negative, and the `[1, 100]` clamp. -/
def calcular_score (company_data : CompanyData) (indicadores : Option Indicadores) : ScoreData :=
  let fundamentals := company_data.fundamentals
  let sector_data := company_data.sector
  let dividends := company_data.dividends
  let shares_data := company_data.shares_outstanding
  let p_prec := puntuar_precio_valoracion fundamentals sector_data
  let p_div0 := puntuar_dividendo dividends fundamentals
  let p_crec := puntuar_crecimiento fundamentals sector_data
  let p_fort := puntuar_fortaleza_financiera fundamentals sector_data
  let p_mm := puntuar_medias_moviles indicadores
  let p_osc := puntuar_osciladores indicadores
  let p_vol := puntuar_volumen indicadores
  let p_beta := puntuar_contexto_beta indicadores
  let p_acc := puntuar_acciones_circulacion shares_data
  let trend := match shares_data with | some sh => sh.shares_trend_3y | none => 0
  let p_div := if trend < 0 then min (p_div0 + 1) 15 else p_div0
  let score_total :=
    max 1 (min 100 (p_prec + p_div + p_crec + p_fort + p_mm + p_osc + p_vol + p_beta + p_acc))
  ⟨score_total, ⟨p_prec, p_div, p_crec, p_fort, p_mm, p_osc, p_vol, p_beta, p_acc⟩⟩

/-! ## Narrative generator (`scoring.py`, risks / opportunities / summary)

Each finding template string is modelled as a constructor carrying the numbers
interpolated into the text; the Spanish prose itself plays no role in any
property below. -/

/-- One finding of `identificar_riesgos` or `identificar_oportunidades`. -/
inductive Hallazgo where
  | deudaAlta (df df_s : ℚ)
  | perElevado (per per_s : ℚ)
  | betaAlta (beta : ℚ)
  | dilucion (trend : ℚ)
  | rsiSobrecompra (rsi : ℚ)
  | margenesBajos (mg mg_s : ℚ)
  | precioSobreZona (dist : ℚ)
  | riesgoMacroFallback
  | ventasFuertes (vs5 : ℚ)
  | buybackActivo
  | reduccionAcciones (trend : ℚ)
  | margenesSuperiores (mg mg_s : ℚ)
  | bpaCreciente (bpa : ℚ)
  | rsiSobreventa (rsi : ℚ)
  | zonaEntradaActiva
  | dividendoCreciente (g : ℚ)
  | oportunidadFallback
deriving DecidableEq

/-- The risk list of `identificar_riesgos` before the fallback is appended;
it is empty exactly when no named risk condition triggers. -/
def identificar_riesgos_base (company_data : CompanyData)
    (indicadores : Option Indicadores) : List Hallazgo :=
  let df := match company_data.fundamentals with | some f => f.debt_to_equity | none => 0
  let df_s := match company_data.sector with | some s => s.sector_debt_to_equity | none => 0
  let per := match company_data.fundamentals with | some f => f.pe_ratio | none => 0
  let per_s := match company_data.sector with | some s => s.sector_pe | none => 0
  let beta := match company_data.profile with | some p => p.beta | none => 1
  let trend := match company_data.shares_outstanding with
    | some sh => sh.shares_trend_3y | none => 0
  let rsi := match indicadores with
    | some ind => match ind.rsi with | some r => r.valor | none => 50
    | none => 50
  let mg := match company_data.fundamentals with | some f => f.gross_margin_5y_avg | none => 0
  let mg_s := match company_data.sector with | some s => s.sector_gross_margin | none => 0
  let zona_estado := match indicadores with
    | some ind => some ind.zona_entrada.estado
    | none => none
  let zona_dist := match indicadores with
    | some ind => ind.zona_entrada.distancia_zona_pct
    | none => 0
  (if df ≠ 0 ∧ df_s ≠ 0 ∧ df_s * (13/10) < df then [Hallazgo.deudaAlta df df_s] else [])
  ++ (if per ≠ 0 ∧ per_s ≠ 0 ∧ per_s * (12/10) < per then [Hallazgo.perElevado per per_s] else [])
  ++ (if beta ≠ 0 ∧ 13/10 < beta then [Hallazgo.betaAlta beta] else [])
  ++ (if 3 < trend then [Hallazgo.dilucion trend] else [])
  ++ (if 70 < rsi then [Hallazgo.rsiSobrecompra rsi] else [])
  ++ (if mg ≠ 0 ∧ mg_s ≠ 0 ∧ mg < mg_s * (8/10) then [Hallazgo.margenesBajos mg mg_s] else [])
  ++ (if zona_estado = some "Esperar retroceso" then [Hallazgo.precioSobreZona zona_dist] else [])

/-- `identificar_riesgos`: the named findings, or the single generic macro-risk
fallback when none triggers. -/
def identificar_riesgos (company_data : CompanyData)
    (indicadores : Option Indicadores) : List Hallazgo :=
  let riesgos := identificar_riesgos_base company_data indicadores
  if riesgos = [] then [Hallazgo.riesgoMacroFallback] else riesgos

/-- The opportunity list of `identificar_oportunidades` before the fallback is
appended; it is empty exactly when no named opportunity condition triggers. -/
def identificar_oportunidades_base (company_data : CompanyData)
    (indicadores : Option Indicadores) : List Hallazgo :=
  let vs5 := match company_data.fundamentals with | some f => f.sales_growth_5y | none => 0
  let has_buyback := match company_data.fundamentals with
    | some f => f.has_buyback | none => false
  let trend := match company_data.shares_outstanding with
    | some sh => sh.shares_trend_3y | none => 0
  let mg := match company_data.fundamentals with | some f => f.gross_margin_5y_avg | none => 0
  let mg_s := match company_data.sector with | some s => s.sector_gross_margin | none => 0
  let bpa5 := match company_data.fundamentals with | some f => f.eps_growth_5y | none => 0
  let rsi := match indicadores with
    | some ind => match ind.rsi with | some r => r.valor | none => 50
    | none => 50
  let zona_estado := match indicadores with
    | some ind => some ind.zona_entrada.estado
    | none => none
  let div_growth := match company_data.dividends with
    | some d => some d.dividend_growth_5y
    | none => none
  (if 10 < vs5 then [Hallazgo.ventasFuertes vs5] else [])
  ++ (if has_buyback then [Hallazgo.buybackActivo] else [])
  ++ (if trend < -2 then [Hallazgo.reduccionAcciones trend] else [])
  ++ (if mg ≠ 0 ∧ mg_s ≠ 0 ∧ mg_s * (11/10) < mg then [Hallazgo.margenesSuperiores mg mg_s] else [])
  ++ (if 10 < bpa5 then [Hallazgo.bpaCreciente bpa5] else [])
  ++ (if rsi < 35 then [Hallazgo.rsiSobreventa rsi] else [])
  ++ (if zona_estado = some "Zona de entrada activa" then [Hallazgo.zonaEntradaActiva] else [])
  ++ (match div_growth with
      | some g => if 5 < g then [Hallazgo.dividendoCreciente g] else []
      | none => [])

/-- `identificar_oportunidades`: the named findings, or the single generic
fallback when none triggers. -/
def identificar_oportunidades (company_data : CompanyData)
    (indicadores : Option Indicadores) : List Hallazgo :=
  let oportunidades := identificar_oportunidades_base company_data indicadores
  if oportunidades = [] then [Hallazgo.oportunidadFallback] else oportunidades

/-- One executive-summary paragraph, abstracted to its topic; `sintesis` keeps
the score tier that selects the closing tone (2 for score ≥ 70, 1 for 50-69,
0 below 50). -/
inductive Parrafo where
  | valoracion
  | rentabilidad
  | estructura
  | capital
  | tecnico
  | sintesis (tier : ℕ)
deriving DecidableEq

/-- `generar_resumen_ejecutivo`, abstracted to the sequence of emitted
paragraphs: P1 is unconditional; P2 is always non-empty because the
`if vs5 is not None` branch always contributes; P3 needs a truthy sector
debt ratio or an active buyback; P4 needs a nonzero share count; P5 needs a
bundle; P6 is unconditional with the score-tier tone. -/
def generar_resumen_ejecutivo (company_data : CompanyData)
    (indicadores : Option Indicadores) (score_data : ScoreData) : List Parrafo :=
  let df_s := match company_data.sector with | some s => s.sector_debt_to_equity | none => 0
  let buyback := match company_data.fundamentals with | some f => f.has_buyback | none => false
  let shares_out := match company_data.shares_outstanding with
    | some sh => sh.shares_outstanding | none => 0
  let score := score_data.score_total
  [Parrafo.valoracion]
  ++ [Parrafo.rentabilidad]
  ++ (if df_s ≠ 0 ∨ buyback = true then [Parrafo.estructura] else [])
  ++ (if shares_out ≠ 0 then [Parrafo.capital] else [])
  ++ (match indicadores with | some _ => [Parrafo.tecnico] | none => [])
  ++ [Parrafo.sintesis (if 70 ≤ score then 2 else if 50 ≤ score then 1 else 0)]

/-- The analysis object returned by `generar_analisis_completo`. -/
structure AnalisisCompleto where
  score : ScoreData
  resumen_ejecutivo : List Parrafo
  riesgos : List Hallazgo
  oportunidades : List Hallazgo
  zona_entrada : Option ZonaEntrada
deriving DecidableEq

/-- `generar_analisis_completo`: score, executive summary, risks,
opportunities and the entry zone of the bundle (an empty dictionary, `none`,
when the bundle is missing). -/
def generar_analisis_completo (company_data : CompanyData)
    (indicadores : Option Indicadores) : AnalisisCompleto :=
  let score_data := calcular_score company_data indicadores
  ⟨score_data,
   generar_resumen_ejecutivo company_data indicadores score_data,
   identificar_riesgos company_data indicadores,
   identificar_oportunidades company_data indicadores,
   match indicadores with | some ind => some ind.zona_entrada | none => none⟩

/-! ## Helper lemmas -/

theorem rhe_zero : rhe 0 = 0 := by with_unfolding_all decide

theorem pyround_zero (d : ℕ) : pyround d 0 = 0 := by
  unfold pyround
  rw [zero_mul, rhe_zero]
  norm_num

theorem ema_eq_some_of_le {ps : List ℚ} {periodo : ℕ} (h : periodo ≤ ps.length) :
    calcular_media_movil_exponencial ps periodo =
      some (pyround 2 ((ps.drop periodo).foldl
        (fun ema p => (p - ema) * (2 / ((periodo : ℚ) + 1)) + ema)
        ((ps.take periodo).sum / (periodo : ℚ)))) := by
  unfold calcular_media_movil_exponencial
  rw [if_neg (by omega)]

theorem macd_series_length_le (ps : List ℚ) :
    (macd_series ps).length ≤ ps.length - 26 := by
  unfold macd_series
  calc (List.filterMap _ (List.range' 26 (ps.length - 26))).length
      ≤ (List.range' 26 (ps.length - 26)).length := List.length_filterMap_le _ _
    _ = ps.length - 26 := List.length_range' _ _ _

theorem score_total_mem_Icc (cd : CompanyData) (ind : Option Indicadores) :
    1 ≤ (calcular_score cd ind).score_total ∧ (calcular_score cd ind).score_total ≤ 100 := by
  simp only [calcular_score]
  omega

/-! ## Claims -/

/-- C1: for every price series with fewer than 30 bars (including the empty
series) the indicator engine returns no bundle instead of raising, and the
composite score computed from that (absent) bundle still has `score_total`
in `[1, 100]` for every company snapshot. -/
theorem C1_short_series_pipeline (sqrtFn : ℚ → ℚ) (datos : List DatoHistorico)
    (beta : Option ℚ) (cd : CompanyData) (h : datos.length < 30) :
    calcular_todos_indicadores sqrtFn datos beta = none ∧
    1 ≤ (generar_analisis_completo cd none).score.score_total ∧
    (generar_analisis_completo cd none).score.score_total ≤ 100 := by
  refine ⟨?_, ?_, ?_⟩
  · unfold calcular_todos_indicadores
    rw [if_pos h]
  · have hs : (generar_analisis_completo cd none).score = calcular_score cd none := rfl
    rw [hs]
    exact (score_total_mem_Icc cd none).1
  · have hs : (generar_analisis_completo cd none).score = calcular_score cd none := rfl
    rw [hs]
    exact (score_total_mem_Icc cd none).2

/-- The empty company snapshot (every dictionary missing). -/
def cdVacio : CompanyData := ⟨none, none, none, none, none⟩

theorem C1_short_series_pipeline_witness :
    calcular_todos_indicadores (fun q => q) [] none = none ∧
    1 ≤ (generar_analisis_completo cdVacio none).score.score_total ∧
    (generar_analisis_completo cdVacio none).score.score_total ≤ 100 :=
  C1_short_series_pipeline (fun q => q) [] none cdVacio (by decide)

/-- C2: every ratio or percentage computation is guarded against a zero
denominator and falls back to a neutral default: a zero sector PER and P/B give
the neutral valuation score 7, a zero sector debt ratio and gross margin give
the neutral financial-strength score 7, a zero average volume gives a zero
volume deviation, and a non-positive current price gives a zero distance to the
entry zone; none of these computations can fail. -/
theorem C2_division_guards (f : Fundamentals) (s : SectorData)
    (datos : List DatoHistorico) (ps : List ℚ) (mm200 : Option ℚ)
    (b : Option SenalBollinger) :
    (s.sector_pe = 0 → s.sector_pb = 0 →
      puntuar_precio_valoracion (some f) (some s) = 7) ∧
    (s.sector_debt_to_equity = 0 → s.sector_gross_margin = 0 →
      puntuar_fortaleza_financiera (some f) (some s) = 7) ∧
    (30 ≤ datos.length → (∀ d ∈ datos.drop (datos.length - 30), d.volume = 0) →
      (analizar_volumen datos).variacion_pct = 0 ∧
      (analizar_volumen datos).volumen_promedio_30d = 0) ∧
    ((ps.getLast?).getD 0 ≤ 0 →
      (calcular_zona_entrada ps mm200 b).distancia_zona_pct = 0) := by
  refine ⟨?_, ?_, ?_, ?_⟩
  · intro h1 h2
    simp only [puntuar_precio_valoracion, h1, h2]
    norm_num
  · intro h1 h2
    simp only [puntuar_fortaleza_financiera, h1, h2]
    norm_num
  · intro hlen hz
    have hsum : ((datos.drop (datos.length - 30)).map (·.volume)).sum = 0 := by
      apply List.sum_eq_zero
      intro x hx
      obtain ⟨dd, hd, rfl⟩ := List.mem_map.mp hx
      exact hz dd hd
    unfold analizar_volumen
    rw [if_neg (by omega)]
    dsimp only
    rw [hsum]
    simp [pyround_zero]
  · intro hp
    unfold calcular_zona_entrada
    rcases hLast : ps.getLast? with _ | p
    · cases mm200 with
      | none => cases b <;> rfl
      | some m =>
        cases b with
        | none => rfl
        | some bb =>
          dsimp only
          by_cases hm : m ≠ 0
          · rw [if_pos hm]
            dsimp only
            have hcond : ¬(pyround 2 (max m bb.banda_inferior) < (0:ℚ) ∧ (0:ℚ) < 0) := by
              rintro ⟨h1, h2⟩
              exact absurd h2 (lt_irrefl 0)
            rw [if_neg hcond]
            exact pyround_zero 2
          · rw [if_neg hm]
    · have hp' : p ≤ 0 := by rw [hLast] at hp; simpa using hp
      cases mm200 with
      | none => cases b <;> rfl
      | some m =>
        cases b with
        | none => rfl
        | some bb =>
          dsimp only
          by_cases hm : m ≠ 0
          · rw [if_pos hm]
            dsimp only
            have hcond : ¬(pyround 2 (max m bb.banda_inferior) < p ∧ 0 < p) := by
              rintro ⟨h1, h2⟩
              exact absurd (lt_of_le_of_lt hp' h2) (lt_irrefl _)
            rw [if_neg hcond]
            exact pyround_zero 2
          · rw [if_neg hm]

theorem C2_division_guards_witness :
    (puntuar_precio_valoracion (some ⟨0, 0, 0, 0, 0, 0, 0, false⟩)
      (some ⟨0, 0, 0, 0⟩) = 7) ∧
    (puntuar_fortaleza_financiera (some ⟨0, 0, 0, 0, 0, 0, 0, false⟩)
      (some ⟨0, 0, 0, 0⟩) = 7) ∧
    ((analizar_volumen (List.replicate 30 ⟨0, 0⟩)).variacion_pct = 0 ∧
      (analizar_volumen (List.replicate 30 ⟨0, 0⟩)).volumen_promedio_30d = 0) ∧
    ((calcular_zona_entrada [] none none).distancia_zona_pct = 0) := by
  have h := C2_division_guards ⟨0, 0, 0, 0, 0, 0, 0, false⟩ ⟨0, 0, 0, 0⟩
    (List.replicate 30 ⟨0, 0⟩) [] none none
  exact ⟨h.1 rfl rfl, h.2.1 rfl rfl, h.2.2.1 (by decide) (by decide), h.2.2.2 (by decide)⟩

/-- C10: for every close series with at least 26 but fewer than 35 bars, the
MACD result keeps the default signal value 0 and still reports a direction:
`is_bullish` holds exactly when the MACD value is strictly positive. -/
theorem C10_macd_default_signal (ps : List ℚ) (h26 : 26 ≤ ps.length)
    (h35 : ps.length < 35) :
    (calcular_macd ps).signal_value = 0 ∧
    ((calcular_macd ps).is_bullish = true ↔ 0 < (calcular_macd ps).macd_value) := by
  have hlen : ¬(ps.length < 26) := by omega
  have e12 := ema_eq_some_of_le (show 12 ≤ ps.length by omega)
  have e26 := ema_eq_some_of_le (show 26 ≤ ps.length by omega)
  have hser : ¬(9 ≤ (macd_series ps).length) := by
    have := macd_series_length_le ps
    omega
  unfold calcular_macd
  rw [if_neg hlen, e12, e26]
  dsimp only
  rw [if_neg hser]
  exact ⟨rfl, by simp⟩

theorem C10_macd_default_signal_witness :
    (calcular_macd (List.replicate 30 (1:ℚ))).signal_value = 0 :=
  (C10_macd_default_signal (List.replicate 30 (1:ℚ)) (by decide) (by decide)).1

/-- C9: for every input, the risks list and the opportunities list are
non-empty, and when no named condition triggers, the list is exactly the single
generic fallback finding. -/
theorem C9_nonempty_findings (cd : CompanyData) (ind : Option Indicadores) :
    identificar_riesgos cd ind ≠ [] ∧
    identificar_oportunidades cd ind ≠ [] ∧
    (identificar_riesgos_base cd ind = [] →
      identificar_riesgos cd ind = [Hallazgo.riesgoMacroFallback]) ∧
    (identificar_oportunidades_base cd ind = [] →
      identificar_oportunidades cd ind = [Hallazgo.oportunidadFallback]) := by
  refine ⟨?_, ?_, ?_, ?_⟩
  · unfold identificar_riesgos
    dsimp only
    split_ifs with h
    · simp
    · exact h
  · unfold identificar_oportunidades
    dsimp only
    split_ifs with h
    · simp
    · exact h
  · intro h
    unfold identificar_riesgos
    dsimp only
    rw [if_pos h]
  · intro h
    unfold identificar_oportunidades
    dsimp only
    rw [if_pos h]

theorem C9_nonempty_findings_witness :
    identificar_riesgos cdVacio none = [Hallazgo.riesgoMacroFallback] ∧
    identificar_oportunidades cdVacio none = [Hallazgo.oportunidadFallback] :=
  ⟨(C9_nonempty_findings cdVacio none).2.2.1 (by with_unfolding_all decide),
   (C9_nonempty_findings cdVacio none).2.2.2 (by with_unfolding_all decide)⟩

/-- A dividend snapshot in which every band contributes zero points. -/
def divdCero : Dividends := ⟨0, 0, 0, false⟩

/-- A company snapshot with the zero dividend data, a share trend of exactly 0,
and everything else missing. -/
def cdC7 : CompanyData := ⟨none, none, none, some divdCero, some ⟨0, 0⟩⟩

/-- C7: the dividend sub-score at the failing input.  All four bands (yield,
growth, payout, buyback) contribute 0 and the 3-year share trend is 0 — not
negative — so under the claim the sub-score should be 0; the code returns 1,
because `puntuar_dividendo` executes `puntos += 1` unconditionally (its own
comment documents that point as the share-shrinkage bonus to be adjusted by the
caller, and `calcular_score` indeed adds a separate `+1` when the trend is
negative, so a shrinking share count is rewarded twice). -/
theorem C7_dividend_unconditional_bonus :
    puntuar_dividendo (some divdCero) none = 1 ∧
    (calcular_score cdC7 none).desglose.dividendo_retribucion = 1 := by
  with_unfolding_all decide

/-- Follows the wording of claim C8: the short-term score sums points for RSI
extremes (2 above 70, 1 below 30), the upper Bollinger position (2) and a
volume deviation above 50% (1); the medium-term score sums beta above 1.5
(2) or above 1.0 (1) plus the upper Bollinger position (1); the long-term
score depends only on beta with thresholds 1.8 (2) and 1.3 (1); each score is
mapped through `score_a_nivel`. -/
def evaluar_riesgos_claimed (beta rsi : Option ℚ) (volumen_variacion : ℚ)
    (bollinger_posicion : String) : Riesgos :=
  let rsi_pts : ℕ :=
    match rsi with
    | some r => if 70 < r then 2 else if r < 30 then 1 else 0
    | none => 0
  let riesgo_cp_score :=
    rsi_pts + (if bollinger_posicion = "Banda superior" then 2 else 0)
      + (if 50 < volumen_variacion then 1 else 0)
  let beta_mp_pts : ℕ :=
    match beta with
    | some b => if 3/2 < b then 2 else if 1 < b then 1 else 0
    | none => 0
  let riesgo_mp_score :=
    beta_mp_pts + (if bollinger_posicion = "Banda superior" then 1 else 0)
  let riesgo_lp_score : ℕ :=
    match beta with
    | some b => if 9/5 < b then 2 else if 13/10 < b then 1 else 0
    | none => 0
  ⟨score_a_nivel riesgo_cp_score, score_a_nivel riesgo_mp_score, score_a_nivel riesgo_lp_score⟩

/-- Claim C8 amended: as `evaluar_riesgos_claimed`, except that the 1-point
short-term contribution for RSI below 30 additionally requires the RSI value to
be nonzero (the source's `if rsi and rsi < 30` falsy-value guard). -/
def evaluar_riesgos_amended (beta rsi : Option ℚ) (volumen_variacion : ℚ)
    (bollinger_posicion : String) : Riesgos :=
  let rsi_pts : ℕ :=
    match rsi with
    | some r => if 70 < r then 2 else if r ≠ 0 ∧ r < 30 then 1 else 0
    | none => 0
  let riesgo_cp_score :=
    rsi_pts + (if bollinger_posicion = "Banda superior" then 2 else 0)
      + (if 50 < volumen_variacion then 1 else 0)
  let beta_mp_pts : ℕ :=
    match beta with
    | some b => if 3/2 < b then 2 else if 1 < b then 1 else 0
    | none => 0
  let riesgo_mp_score :=
    beta_mp_pts + (if bollinger_posicion = "Banda superior" then 1 else 0)
  let riesgo_lp_score : ℕ :=
    match beta with
    | some b => if 9/5 < b then 2 else if 13/10 < b then 1 else 0
    | none => 0
  ⟨score_a_nivel riesgo_cp_score, score_a_nivel riesgo_mp_score, score_a_nivel riesgo_lp_score⟩

theorem rsi_pts_guard_eq (r : ℚ) :
    (if r ≠ 0 ∧ 70 < r then (2:ℕ) else if r ≠ 0 ∧ r < 30 then 1 else 0)
      = (if 70 < r then 2 else if r ≠ 0 ∧ r < 30 then 1 else 0) := by
  by_cases h7 : 70 < r
  · have hne : r ≠ 0 := by
      intro h0
      rw [h0] at h7
      norm_num at h7
    simp [h7, hne]
  · simp [h7]

theorem beta_pts_guard_eq (b t1 t2 : ℚ) (h1 : 0 < t1) (h2 : 0 < t2) :
    (if b ≠ 0 ∧ t1 < b then (2:ℕ) else if b ≠ 0 ∧ t2 < b then 1 else 0)
      = (if t1 < b then 2 else if t2 < b then 1 else 0) := by
  by_cases hb1 : t1 < b
  · have hne : b ≠ 0 := by
      intro h0
      rw [h0] at hb1
      linarith
    simp [hb1, hne]
  · by_cases hb2 : t2 < b
    · have hne : b ≠ 0 := by
        intro h0
        rw [h0] at hb2
        linarith
      simp [hb1, hb2, hne]
    · simp [hb1, hb2]

/-- C8 counterexample: the claim says a point is summed for an RSI extreme
below 30, but at RSI exactly 0 (which `calcular_rsi` produces for a series
with no gains) the source's falsy-value guard skips it: with beta 1, zero
volume deviation and a middle Bollinger position the code reports short-term
risk "Bajo" while the claim's rule yields "Medio". -/
theorem C8_risk_classifier_counterexample :
    (evaluar_riesgos (some 1) (some 0) 0 "Banda media").riesgo_corto_plazo = "Bajo" ∧
    (evaluar_riesgos_claimed (some 1) (some 0) 0 "Banda media").riesgo_corto_plazo = "Medio" := by
  with_unfolding_all decide

/-- C8 amended: the risk classifier computes exactly the claim's additive point
scores and level thresholds, with the single correction that the below-30 RSI
point also requires a nonzero RSI value. -/
theorem C8_risk_classifier_amended (beta rsi : Option ℚ) (vol : ℚ) (pos : String) :
    evaluar_riesgos beta rsi vol pos = evaluar_riesgos_amended beta rsi vol pos := by
  unfold evaluar_riesgos evaluar_riesgos_amended
  cases rsi with
  | none =>
    cases beta with
    | none => rfl
    | some b =>
      dsimp only
      rw [beta_pts_guard_eq b (3/2) 1 (by norm_num) (by norm_num),
        beta_pts_guard_eq b (9/5) (13/10) (by norm_num) (by norm_num)]
  | some r =>
    cases beta with
    | none =>
      dsimp only
      rw [rsi_pts_guard_eq r]
    | some b =>
      dsimp only
      rw [rsi_pts_guard_eq r,
        beta_pts_guard_eq b (3/2) 1 (by norm_num) (by norm_num),
        beta_pts_guard_eq b (9/5) (13/10) (by norm_num) (by norm_num)]

theorem rhe_ge_qfloor (x : ℚ) : qfloor x ≤ rhe x := by
  unfold rhe
  dsimp only
  split_ifs <;> omega

theorem pyround2_pos {x : ℚ} (hx : 1/100 ≤ x) : 0 < pyround 2 x := by
  unfold pyround
  have h1 : (1:ℤ) ≤ qfloor (x * 10 ^ 2) := by
    rw [qfloor_eq_floor, Int.le_floor]
    push_cast
    nlinarith
  have h2 : (1:ℤ) ≤ rhe (x * 10 ^ 2) := le_trans h1 (rhe_ge_qfloor _)
  have h3 : (1:ℚ) ≤ (rhe (x * 10 ^ 2) : ℚ) := by exact_mod_cast h2
  have h4 : (0:ℚ) < 10 ^ 2 := by norm_num
  exact div_pos (by linarith) h4

theorem foldl_ema_lower {c m : ℚ} (hm0 : 0 ≤ m) (hm1 : m ≤ 1) :
    ∀ (vals : List ℚ) (seed : ℚ), c ≤ seed → (∀ v ∈ vals, c ≤ v) →
      c ≤ vals.foldl (fun ema p => (p - ema) * m + ema) seed := by
  intro vals
  induction vals with
  | nil =>
    intro seed hs _
    simpa using hs
  | cons v tl ih =>
    intro seed hs hv
    have hcv : c ≤ v := hv v (by simp)
    have hstep : c ≤ (v - seed) * m + seed := by
      nlinarith [mul_nonneg hm0 (sub_nonneg.mpr hcv),
        mul_nonneg (sub_nonneg.mpr hm1) (sub_nonneg.mpr hs)]
    simpa using ih ((v - seed) * m + seed) hstep (fun w hw => hv w (by simp [hw]))

theorem ema_pos_of_lower {ps : List ℚ} {periodo : ℕ} (hp : 1 ≤ periodo)
    (hlen : periodo ≤ ps.length) (hc : ∀ p ∈ ps, (1:ℚ)/100 ≤ p) :
    ∃ v, calcular_media_movil_exponencial ps periodo = some v ∧ 0 < v := by
  have hq0 : (0:ℚ) < (periodo : ℚ) := by exact_mod_cast hp
  have hseed : (1:ℚ)/100 ≤ (ps.take periodo).sum / (periodo : ℚ) := by
    have hall : ∀ x ∈ ps.take periodo, (1:ℚ)/100 ≤ x :=
      fun x hx => hc x (List.mem_of_mem_take hx)
    have hlen' : (ps.take periodo).length = periodo := by
      rw [List.length_take]
      omega
    have hsum : (ps.take periodo).length • ((1:ℚ)/100) ≤ (ps.take periodo).sum :=
      List.card_nsmul_le_sum (ps.take periodo) ((1:ℚ)/100) hall
    rw [hlen', nsmul_eq_mul] at hsum
    rw [le_div_iff₀ hq0]
    calc (1:ℚ)/100 * (periodo : ℚ) = (periodo : ℚ) * ((1:ℚ)/100) := by ring
      _ ≤ (ps.take periodo).sum := hsum
  have hm0 : (0:ℚ) ≤ 2 / ((periodo : ℚ) + 1) := by positivity
  have hm1 : 2 / ((periodo : ℚ) + 1) ≤ 1 := by
    rw [div_le_one (by linarith)]
    have : (1:ℚ) ≤ (periodo : ℚ) := by exact_mod_cast hp
    linarith
  have hfold : (1:ℚ)/100 ≤ (ps.drop periodo).foldl
      (fun ema p => (p - ema) * (2 / ((periodo : ℚ) + 1)) + ema)
      ((ps.take periodo).sum / (periodo : ℚ)) :=
    foldl_ema_lower hm0 hm1 _ _ hseed (fun v hv => hc v (List.mem_of_mem_drop hv))
  exact ⟨_, ema_eq_some_of_le hlen, pyround2_pos hfold⟩

theorem length_filterMap_of_isSome {α β : Type} (f : α → Option β) :
    ∀ l : List α, (∀ x ∈ l, (f x).isSome) → (l.filterMap f).length = l.length := by
  intro l
  induction l with
  | nil => intro _; rfl
  | cons a tl ih =>
    intro h
    rw [List.filterMap_cons]
    rcases hfa : f a with _ | b
    · exact absurd (h a (by simp)) (by simp [hfa])
    · simp only [List.length_cons]
      rw [ih (fun x hx => h x (by simp [hx]))]

/-- C5 counterexample: 35 all-zero closes give 35 − 26 = 9 bars from the 27th
onward, so under the claim 9 MACD values exist and the signal is defined; yet
`macd_series` is empty — every prefix EMA is 0 and skipped by the source's
`if ema12_i and ema26_i` truthiness guard — and the signal keeps the default 0. -/
theorem C5_macd_signal_counterexample :
    (macd_series (List.replicate 35 (0:ℚ))).length = 0 ∧
    (List.replicate 35 (0:ℚ)).length - 26 = 9 ∧
    (calcular_macd (List.replicate 35 (0:ℚ))).signal_value = 0 := by
  refine ⟨by with_unfolding_all decide, by decide, by with_unfolding_all decide⟩

/-- C5 amended: `macd_series` holds at most one value per bar from the 27th
onward (exactly one whenever every close is at least 0.01, so that no prefix
EMA rounds to the falsy 0); at least 9 values — hence at least 35 bars — are
needed before the signal line is computed; and `is_bullish` holds iff the MACD
value strictly exceeds the signal value, whether or not the signal is defined. -/
theorem C5_macd_signal_amended (ps : List ℚ) :
    (macd_series ps).length ≤ ps.length - 26 ∧
    (9 ≤ (macd_series ps).length → 35 ≤ ps.length) ∧
    ((calcular_macd ps).is_bullish = true ↔
      (calcular_macd ps).signal_value < (calcular_macd ps).macd_value) ∧
    ((∀ c ∈ ps, (1:ℚ)/100 ≤ c) → (macd_series ps).length = ps.length - 26) := by
  refine ⟨macd_series_length_le ps, ?_, ?_, ?_⟩
  · intro h9
    have := macd_series_length_le ps
    omega
  · by_cases h26 : ps.length < 26
    · unfold calcular_macd
      rw [if_pos h26]
      simp
    · have e12 := ema_eq_some_of_le (show 12 ≤ ps.length by omega)
      have e26 := ema_eq_some_of_le (show 26 ≤ ps.length by omega)
      unfold calcular_macd
      rw [if_neg h26, e12, e26]
      dsimp only
      simp [decide_eq_true_eq]
  · intro hc
    unfold macd_series
    rw [length_filterMap_of_isSome]
    · exact List.length_range' _ _ _
    · intro i hi
      have hmem : 26 ≤ i ∧ i < 26 + (ps.length - 26) := List.mem_range'_1.mp hi
      have hi1 : i + 1 ≤ ps.length := by omega
      have htk : (ps.take (i+1)).length = i + 1 := by
        rw [List.length_take]
        omega
      have hsub : ∀ p ∈ ps.take (i+1), (1:ℚ)/100 ≤ p :=
        fun p hp => hc p (List.mem_of_mem_take hp)
      obtain ⟨v12, hv12, hpos12⟩ :=
        ema_pos_of_lower (show 1 ≤ 12 by norm_num) (by omega) hsub
      obtain ⟨v26, hv26, hpos26⟩ :=
        ema_pos_of_lower (show 1 ≤ 26 by norm_num) (by omega) hsub
      simp only [hv12, hv26]
      rw [if_pos ⟨ne_of_gt hpos12, ne_of_gt hpos26⟩]
      rfl

theorem C5_macd_signal_amended_witness :
    (macd_series (List.replicate 35 (1:ℚ))).length =
      (List.replicate 35 (1:ℚ)).length - 26 :=
  (C5_macd_signal_amended (List.replicate 35 (1:ℚ))).2.2.2 (by with_unfolding_all decide)

/-- Length of the delta list: one fewer than the closes. -/
theorem cambios_length (ps : List ℚ) : (cambios ps).length = ps.length - 1 := by
  induction ps with
  | nil => rfl
  | cons a tail ih =>
    cases tail with
    | nil => rfl
    | cons b rest =>
      simp only [cambios, List.length_cons] at ih ⊢
      omega

theorem sum_suffix_eq (l : List ℚ) (k : ℕ) :
    (l.drop (l.length - k)).sum = (l.reverse.take k).sum := by
  rw [List.take_reverse, List.sum_reverse]

/-- Follows the wording of claim C3: seed the average gain and loss as the
simple mean of the FIRST `period` (14) deltas, then apply Wilder's smoothing
once for each subsequent delta in chronological order. -/
def calcular_rsi_first_seed (precios_cierre : List ℚ) : Option ℚ :=
  let periodo : ℕ := 14
  if precios_cierre.length < periodo + 1 then none
  else
    let cs := cambios precios_cierre
    let subs := subidas cs
    let bajs := bajadas cs
    let avg_subida :=
      wilder periodo ((subs.take periodo).sum / (periodo : ℚ)) (subs.drop periodo)
    let avg_bajada :=
      wilder periodo ((bajs.take periodo).sum / (periodo : ℚ)) (bajs.drop periodo)
    if avg_bajada = 0 then some 100
    else some (pyround 2 (100 - 100 / (1 + avg_subida / avg_bajada)))

/-- Claim C3 amended: the seed averages are the simple means of the LAST 14
deltas, and the smoothing loop then runs once per delta from index 14 onward
(overlapping the seed window whenever more than 15 closes exist). -/
def calcular_rsi_last_seed (precios_cierre : List ℚ) : Option ℚ :=
  let periodo : ℕ := 14
  if precios_cierre.length < periodo + 1 then none
  else
    let cs := cambios precios_cierre
    let subs := subidas cs
    let bajs := bajadas cs
    let avg_subida :=
      wilder periodo ((subs.reverse.take periodo).sum / (periodo : ℚ)) (subs.drop periodo)
    let avg_bajada :=
      wilder periodo ((bajs.reverse.take periodo).sum / (periodo : ℚ)) (bajs.drop periodo)
    if avg_bajada = 0 then some 100
    else some (pyround 2 (100 - 100 / (1 + avg_subida / avg_bajada)))

/-- A 16-close series that crashes from 100 to 0 and stays there. -/
def psRsiCrash : List ℚ := [100, 0, 0, 0, 0, 0, 0, 0, 0, 0, 0, 0, 0, 0, 0, 0]

/-- C3 counterexample: on a series that loses its whole value on day one the
code seeds from the LAST 14 deltas (all zero), so the crash never enters the
computation and the RSI is 100; the claim's first-14-delta seed propagates the
loss through Wilder's smoothing and yields RSI 0. -/
theorem C3_rsi_seed_counterexample :
    calcular_rsi psRsiCrash = some 100 ∧
    calcular_rsi_first_seed psRsiCrash = some 0 ∧
    15 ≤ psRsiCrash.length := by
  refine ⟨by with_unfolding_all decide, by with_unfolding_all decide, by decide⟩

/-- C3 amended: for every series of at least 15 closes the RSI equals the
last-14-delta-seeded Wilder recurrence, and on exactly 15 closes (where the
first 14 deltas are the last 14) it coincides with the claimed
first-14-delta-seeded recurrence. -/
theorem C3_rsi_seed_amended (ps : List ℚ) (h : 15 ≤ ps.length) :
    calcular_rsi ps = calcular_rsi_last_seed ps ∧
    (ps.length = 15 → calcular_rsi ps = calcular_rsi_first_seed ps) := by
  constructor
  · unfold calcular_rsi calcular_rsi_last_seed
    dsimp only
    rw [sum_suffix_eq (subidas (cambios ps)) 14, sum_suffix_eq (bajadas (cambios ps)) 14]
  · intro h15
    have hls : (subidas (cambios ps)).length = 14 := by
      unfold subidas
      rw [List.length_map, cambios_length]
      omega
    have hlb : (bajadas (cambios ps)).length = 14 := by
      unfold bajadas
      rw [List.length_map, cambios_length]
      omega
    have e1 : (subidas (cambios ps)).drop ((subidas (cambios ps)).length - 14)
        = subidas (cambios ps) := by
      rw [hls]
      simp
    have e2 : (subidas (cambios ps)).take 14 = subidas (cambios ps) :=
      List.take_of_length_le (by omega)
    have e3 : (bajadas (cambios ps)).drop ((bajadas (cambios ps)).length - 14)
        = bajadas (cambios ps) := by
      rw [hlb]
      simp
    have e4 : (bajadas (cambios ps)).take 14 = bajadas (cambios ps) :=
      List.take_of_length_le (by omega)
    unfold calcular_rsi calcular_rsi_first_seed
    dsimp only
    rw [e1, e2, e3, e4]

theorem C3_rsi_seed_amended_witness :
    calcular_rsi (List.replicate 15 (1:ℚ)) = calcular_rsi_last_seed (List.replicate 15 (1:ℚ)) ∧
    calcular_rsi (List.replicate 15 (1:ℚ)) = calcular_rsi_first_seed (List.replicate 15 (1:ℚ)) :=
  ⟨(C3_rsi_seed_amended (List.replicate 15 (1:ℚ)) (by decide)).1,
   (C3_rsi_seed_amended (List.replicate 15 (1:ℚ)) (by decide)).2 (by decide)⟩

theorem wilder_nonneg (periodo : ℕ) (hp : 1 ≤ periodo) :
    ∀ (vals : List ℚ) (seed : ℚ), 0 ≤ seed → (∀ v ∈ vals, 0 ≤ v) →
      0 ≤ wilder periodo seed vals := by
  intro vals
  induction vals with
  | nil =>
    intro seed hs _
    simpa [wilder] using hs
  | cons v tl ih =>
    intro seed hs hv
    have h0 : (0:ℚ) ≤ v := hv v (by simp)
    have hps : (1:ℚ) ≤ (periodo : ℚ) := by exact_mod_cast hp
    have hstep : 0 ≤ (seed * ((periodo : ℚ) - 1) + v) / (periodo : ℚ) :=
      div_nonneg (add_nonneg (mul_nonneg hs (by linarith)) h0) (by linarith)
    have := ih ((seed * ((periodo : ℚ) - 1) + v) / (periodo : ℚ)) hstep
      (fun w hw => hv w (by simp [hw]))
    simpa [wilder] using this

theorem wilder_zero (periodo : ℕ) :
    ∀ vals : List ℚ, (∀ v ∈ vals, v = 0) → wilder periodo 0 vals = 0 := by
  intro vals
  induction vals with
  | nil => intro _; rfl
  | cons v tl ih =>
    intro hv
    have h0 : v = 0 := hv v (by simp)
    have hrec := ih (fun w hw => hv w (by simp [hw]))
    simp only [wilder, List.foldl_cons] at hrec ⊢
    rw [h0]
    simpa using hrec

theorem subidas_nonneg (cs : List ℚ) : ∀ x ∈ subidas cs, 0 ≤ x := by
  intro x hx
  obtain ⟨c, _, rfl⟩ := List.mem_map.mp hx
  split_ifs with hc
  · linarith
  · rfl

theorem bajadas_nonneg (cs : List ℚ) : ∀ x ∈ bajadas cs, 0 ≤ x := by
  intro x hx
  obtain ⟨c, _, rfl⟩ := List.mem_map.mp hx
  split_ifs with hc
  · exact abs_nonneg c
  · rfl

theorem bajadas_eq_zero {cs : List ℚ} (h : ∀ c ∈ cs, 0 ≤ c) :
    ∀ x ∈ bajadas cs, x = 0 := by
  intro x hx
  obtain ⟨c, hc, rfl⟩ := List.mem_map.mp hx
  have := h c hc
  simp only [ite_eq_right_iff]
  intro hneg
  linarith

theorem rsi_formula_bounds {A B : ℚ} (hA : 0 ≤ A) (hB : 0 < B) :
    0 ≤ pyround 2 (100 - 100 / (1 + A / B)) ∧
      pyround 2 (100 - 100 / (1 + A / B)) ≤ 100 := by
  have hrs : 0 ≤ A / B := div_nonneg hA (le_of_lt hB)
  have h1 : (0:ℚ) < 1 + A / B := by linarith
  have hle : 100 / (1 + A / B) ≤ 100 := div_le_self (by norm_num) (by linarith)
  have hpos : 0 < 100 / (1 + A / B) := div_pos (by norm_num) h1
  exact pyround2_mem_Icc (by linarith) (by linarith)

/-- A 15-close series with huge gains and one final 1-point loss; the exact
RSI is 100 − 100/260001 ≈ 99.9996, which rounds to 100.00. -/
def psRsiRound : List ℚ := [1, 20001, 40001, 60001, 80001, 100001, 120001,
  140001, 160001, 180001, 200001, 220001, 240001, 260001, 260000]

/-- C4 counterexample: the returned RSI is exactly 100 even though a
day-over-day loss occurred in the window, because the two-decimal rounding
carries 99.9996 up to 100.00; so "RSI = 100 exactly when no losses occurred"
fails in the only-if direction. -/
theorem C4_rsi_range_counterexample :
    calcular_rsi psRsiRound = some 100 ∧ ∃ c ∈ cambios psRsiRound, c < 0 := by
  refine ⟨by with_unfolding_all decide, by with_unfolding_all decide⟩

/-- C4 amended: for every series of at least 15 closes the RSI is defined and
lies in `[0, 100]`, and it equals 100 whenever no close is lower than its
predecessor; the converse direction fails only through rounding (values above
99.995 round to 100). -/
theorem C4_rsi_range_amended (ps : List ℚ) (h : 15 ≤ ps.length) :
    (∃ r, calcular_rsi ps = some r ∧ 0 ≤ r ∧ r ≤ 100) ∧
    ((∀ c ∈ cambios ps, 0 ≤ c) → calcular_rsi ps = some 100) := by
  have hlen : ¬(ps.length < 14 + 1) := by omega
  constructor
  · unfold calcular_rsi
    dsimp only
    rw [if_neg hlen]
    have hA : 0 ≤ wilder 14
        (((subidas (cambios ps)).drop ((subidas (cambios ps)).length - 14)).sum / ((14:ℕ) : ℚ))
        ((subidas (cambios ps)).drop 14) := by
      apply wilder_nonneg 14 (by norm_num)
      · apply div_nonneg _ (by norm_num)
        exact List.sum_nonneg
          (fun x hx => subidas_nonneg (cambios ps) x (List.mem_of_mem_drop hx))
      · exact fun v hv => subidas_nonneg (cambios ps) v (List.mem_of_mem_drop hv)
    have hBnn : 0 ≤ wilder 14
        (((bajadas (cambios ps)).drop ((bajadas (cambios ps)).length - 14)).sum / ((14:ℕ) : ℚ))
        ((bajadas (cambios ps)).drop 14) := by
      apply wilder_nonneg 14 (by norm_num)
      · apply div_nonneg _ (by norm_num)
        exact List.sum_nonneg
          (fun x hx => bajadas_nonneg (cambios ps) x (List.mem_of_mem_drop hx))
      · exact fun v hv => bajadas_nonneg (cambios ps) v (List.mem_of_mem_drop hv)
    split_ifs with hb
    · exact ⟨100, rfl, by norm_num, by norm_num⟩
    · refine ⟨_, rfl, ?_, ?_⟩
      · exact (rsi_formula_bounds hA (lt_of_le_of_ne hBnn (Ne.symm hb))).1
      · exact (rsi_formula_bounds hA (lt_of_le_of_ne hBnn (Ne.symm hb))).2
  · intro hnl
    unfold calcular_rsi
    dsimp only
    rw [if_neg hlen]
    have hz : ∀ x ∈ bajadas (cambios ps), x = 0 := bajadas_eq_zero hnl
    have hseed : ((bajadas (cambios ps)).drop ((bajadas (cambios ps)).length - 14)).sum = 0 :=
      List.sum_eq_zero (fun x hx => hz x (List.mem_of_mem_drop hx))
    rw [hseed, zero_div,
      wilder_zero 14 _ (fun v hv => hz v (List.mem_of_mem_drop hv))]
    simp

theorem C4_rsi_range_amended_witness :
    calcular_rsi (List.replicate 15 (1:ℚ)) = some 100 :=
  (C4_rsi_range_amended (List.replicate 15 (1:ℚ)) (by decide)).2 (by with_unfolding_all decide)

theorem yield_band_mono {x y : ℚ} (hxy : x ≤ y) :
    (if 4 ≤ x then (4:ℕ) else if 5/2 ≤ x then 3 else if 3/2 ≤ x then 2
      else if 0 < x then 1 else 0)
      ≤ (if 4 ≤ y then 4 else if 5/2 ≤ y then 3 else if 3/2 ≤ y then 2
      else if 0 < y then 1 else 0) := by
  split_ifs <;> first | omega | linarith

theorem sales_band_mono {x y : ℚ} (hxy : x ≤ y) :
    (if 20 < x then (8:ℕ) else if 10 < x then 6 else if 5 < x then 4
      else if 0 < x then 2 else if -5 < x then 1 else 0)
      ≤ (if 20 < y then 8 else if 10 < y then 6 else if 5 < y then 4
      else if 0 < y then 2 else if -5 < y then 1 else 0) := by
  split_ifs <;> first | omega | linarith

theorem eps_band_mono {x y : ℚ} (hxy : x ≤ y) :
    (if 25 < x then (7:ℕ) else if 15 < x then 5 else if 8 < x then 4
      else if 0 < x then 2 else if -5 < x then 1 else 0)
      ≤ (if 25 < y then 7 else if 15 < y then 5 else if 8 < y then 4
      else if 0 < y then 2 else if -5 < y then 1 else 0) := by
  split_ifs <;> first | omega | linarith

theorem ratio_band_antimono {a b : ℚ} (hab : a ≤ b) :
    (if b < 1/2 then (8:ℕ) else if b < 4/5 then 6 else if b < 1 then 5
      else if b < 13/10 then 3 else if b < 9/5 then 2 else 1)
      ≤ (if a < 1/2 then 8 else if a < 4/5 then 6 else if a < 1 then 5
      else if a < 13/10 then 3 else if a < 9/5 then 2 else 1) := by
  split_ifs <;> first | omega | linarith

theorem puntuar_crecimiento_mono_sales (f : Fundamentals) (sd : Option SectorData)
    {x y : ℚ} (hxy : x ≤ y) :
    puntuar_crecimiento (some ⟨f.pe_ratio, f.price_to_book, f.gross_margin_5y_avg, x,
        f.eps_growth_5y, f.debt_to_equity, f.payout_ratio, f.has_buyback⟩) sd
      ≤ puntuar_crecimiento (some ⟨f.pe_ratio, f.price_to_book, f.gross_margin_5y_avg, y,
        f.eps_growth_5y, f.debt_to_equity, f.payout_ratio, f.has_buyback⟩) sd := by
  unfold puntuar_crecimiento
  dsimp only
  have h := sales_band_mono hxy
  omega

theorem puntuar_crecimiento_mono_eps (f : Fundamentals) (sd : Option SectorData)
    {x y : ℚ} (hxy : x ≤ y) :
    puntuar_crecimiento (some ⟨f.pe_ratio, f.price_to_book, f.gross_margin_5y_avg,
        f.sales_growth_5y, x, f.debt_to_equity, f.payout_ratio, f.has_buyback⟩) sd
      ≤ puntuar_crecimiento (some ⟨f.pe_ratio, f.price_to_book, f.gross_margin_5y_avg,
        f.sales_growth_5y, y, f.debt_to_equity, f.payout_ratio, f.has_buyback⟩) sd := by
  unfold puntuar_crecimiento
  dsimp only
  have h := eps_band_mono hxy
  omega

theorem puntuar_dividendo_mono_yield (d : Dividends) (fu : Option Fundamentals)
    {x y : ℚ} (hxy : x ≤ y) :
    puntuar_dividendo (some ⟨x, d.dividend_growth_3y, d.dividend_growth_5y,
        d.pays_dividend⟩) fu
      ≤ puntuar_dividendo (some ⟨y, d.dividend_growth_3y, d.dividend_growth_5y,
        d.pays_dividend⟩) fu := by
  unfold puntuar_dividendo
  dsimp only
  have h := yield_band_mono hxy
  omega

theorem puntuar_fortaleza_antimono_debt (f : Fundamentals) (s : SectorData)
    {x y : ℚ} (hxy : x ≤ y) (hs : 0 < s.sector_debt_to_equity) :
    puntuar_fortaleza_financiera (some ⟨f.pe_ratio, f.price_to_book,
        f.gross_margin_5y_avg, f.sales_growth_5y, f.eps_growth_5y, y,
        f.payout_ratio, f.has_buyback⟩) (some s)
      ≤ puntuar_fortaleza_financiera (some ⟨f.pe_ratio, f.price_to_book,
        f.gross_margin_5y_avg, f.sales_growth_5y, f.eps_growth_5y, x,
        f.payout_ratio, f.has_buyback⟩) (some s) := by
  unfold puntuar_fortaleza_financiera
  dsimp only
  have hg : s.sector_debt_to_equity ≠ 0 ∧ 0 < s.sector_debt_to_equity := ⟨ne_of_gt hs, hs⟩
  rw [if_pos hg, if_pos hg]
  have hr : x / s.sector_debt_to_equity ≤ y / s.sector_debt_to_equity :=
    (div_le_div_iff_of_pos_right hs).mpr hxy
  have h := ratio_band_antimono hr
  omega

theorem calcular_score_mono_components (cd1 cd2 : CompanyData) (ind : Option Indicadores)
    (hsh : cd1.shares_outstanding = cd2.shares_outstanding)
    (h1 : puntuar_precio_valoracion cd1.fundamentals cd1.sector
        = puntuar_precio_valoracion cd2.fundamentals cd2.sector)
    (h2 : puntuar_dividendo cd1.dividends cd1.fundamentals
        ≤ puntuar_dividendo cd2.dividends cd2.fundamentals)
    (h3 : puntuar_crecimiento cd1.fundamentals cd1.sector
        ≤ puntuar_crecimiento cd2.fundamentals cd2.sector)
    (h4 : puntuar_fortaleza_financiera cd1.fundamentals cd1.sector
        ≤ puntuar_fortaleza_financiera cd2.fundamentals cd2.sector) :
    (calcular_score cd1 ind).score_total ≤ (calcular_score cd2 ind).score_total := by
  unfold calcular_score
  dsimp only
  rw [hsh]
  split_ifs <;> omega

/-- C6: holding all other inputs fixed, `score_total` is monotonically
non-decreasing in `sales_growth_5y`, in `eps_growth_5y` and in
`dividend_yield_at_buy`, and non-increasing in `debt_to_equity` for a fixed
positive sector debt/equity benchmark (i.e. in the debt-to-sector ratio). -/
theorem C6_score_monotonicity (cd : CompanyData) (f : Fundamentals) (d : Dividends)
    (s : SectorData) (ind : Option Indicadores) (x y : ℚ) (hxy : x ≤ y) :
    ((calcular_score ⟨cd.profile, some ⟨f.pe_ratio, f.price_to_book,
        f.gross_margin_5y_avg, x, f.eps_growth_5y, f.debt_to_equity,
        f.payout_ratio, f.has_buyback⟩, cd.sector, cd.dividends,
        cd.shares_outstanding⟩ ind).score_total
      ≤ (calcular_score ⟨cd.profile, some ⟨f.pe_ratio, f.price_to_book,
        f.gross_margin_5y_avg, y, f.eps_growth_5y, f.debt_to_equity,
        f.payout_ratio, f.has_buyback⟩, cd.sector, cd.dividends,
        cd.shares_outstanding⟩ ind).score_total) ∧
    ((calcular_score ⟨cd.profile, some ⟨f.pe_ratio, f.price_to_book,
        f.gross_margin_5y_avg, f.sales_growth_5y, x, f.debt_to_equity,
        f.payout_ratio, f.has_buyback⟩, cd.sector, cd.dividends,
        cd.shares_outstanding⟩ ind).score_total
      ≤ (calcular_score ⟨cd.profile, some ⟨f.pe_ratio, f.price_to_book,
        f.gross_margin_5y_avg, f.sales_growth_5y, y, f.debt_to_equity,
        f.payout_ratio, f.has_buyback⟩, cd.sector, cd.dividends,
        cd.shares_outstanding⟩ ind).score_total) ∧
    ((calcular_score ⟨cd.profile, cd.fundamentals, cd.sector,
        some ⟨x, d.dividend_growth_3y, d.dividend_growth_5y, d.pays_dividend⟩,
        cd.shares_outstanding⟩ ind).score_total
      ≤ (calcular_score ⟨cd.profile, cd.fundamentals, cd.sector,
        some ⟨y, d.dividend_growth_3y, d.dividend_growth_5y, d.pays_dividend⟩,
        cd.shares_outstanding⟩ ind).score_total) ∧
    (0 < s.sector_debt_to_equity →
      (calcular_score ⟨cd.profile, some ⟨f.pe_ratio, f.price_to_book,
          f.gross_margin_5y_avg, f.sales_growth_5y, f.eps_growth_5y, y,
          f.payout_ratio, f.has_buyback⟩, some s, cd.dividends,
          cd.shares_outstanding⟩ ind).score_total
        ≤ (calcular_score ⟨cd.profile, some ⟨f.pe_ratio, f.price_to_book,
          f.gross_margin_5y_avg, f.sales_growth_5y, f.eps_growth_5y, x,
          f.payout_ratio, f.has_buyback⟩, some s, cd.dividends,
          cd.shares_outstanding⟩ ind).score_total) := by
  obtain ⟨pr, fu, se, di, sh⟩ := cd
  refine ⟨?_, ?_, ?_, ?_⟩
  · exact calcular_score_mono_components _ _ ind rfl
      (by cases se <;> rfl)
      (le_of_eq (by cases di <;> rfl))
      (puntuar_crecimiento_mono_sales f se hxy)
      (le_of_eq (by cases se <;> rfl))
  · exact calcular_score_mono_components _ _ ind rfl
      (by cases se <;> rfl)
      (le_of_eq (by cases di <;> rfl))
      (puntuar_crecimiento_mono_eps f se hxy)
      (le_of_eq (by cases se <;> rfl))
  · exact calcular_score_mono_components _ _ ind rfl
      rfl
      (puntuar_dividendo_mono_yield d fu hxy)
      (le_of_eq rfl)
      (le_of_eq rfl)
  · intro hs
    exact calcular_score_mono_components _ _ ind rfl
      rfl
      (le_of_eq (by cases di <;> rfl))
      (le_of_eq rfl)
      (puntuar_fortaleza_antimono_debt f s hxy hs)

/-- Concrete all-zero snapshots used to instantiate C6. -/
def fundCero : Fundamentals := ⟨0, 0, 0, 0, 0, 0, 0, false⟩

theorem C6_score_monotonicity_witness :
    ((calcular_score ⟨none, some ⟨0, 0, 0, 1, 0, 0, 0, false⟩, none, none, none⟩
        none).score_total
      ≤ (calcular_score ⟨none, some ⟨0, 0, 0, 2, 0, 0, 0, false⟩, none, none, none⟩
        none).score_total) ∧
    (0 < (1:ℚ) →
      (calcular_score ⟨none, some ⟨0, 0, 0, 0, 0, 2, 0, false⟩, some ⟨0, 0, 0, 1⟩,
          none, none⟩ none).score_total
        ≤ (calcular_score ⟨none, some ⟨0, 0, 0, 0, 0, 1, 0, false⟩, some ⟨0, 0, 0, 1⟩,
          none, none⟩ none).score_total) := by
  have h := C6_score_monotonicity cdVacio fundCero ⟨0, 0, 0, false⟩ ⟨0, 0, 0, 1⟩
    none 1 2 (by norm_num)
  exact ⟨h.1, fun _ => h.2.2.2 (by norm_num)⟩

end PortfolioSentinel
